import Mathlib

/-!
Verification of the GameCube controller enabler's real-time input pipeline:
report decoding, trigger calibration, virtual-controller mapping, and the
settings-record merge, shallowly embedded from gc_controller_enabler.py.

Python floats are modelled by exact rationals (ℚ); every concrete value
appearing in the claims is far from a rounding boundary, so the rational
model and IEEE double evaluation agree on them.  Python int() applied to a
float truncates toward zero, which is pyInt below.
-/

set_option autoImplicit false

namespace GCEnabler

/-- Truncation toward zero, the semantics of Python int() on a float. -/
def pyInt (q : ℚ) : ℤ :=
  if q < 0 then ⌈q⌉ else ⌊q⌋

/-- Trigger side selector; the Python code passes the string "left" or
"right" and builds dictionary keys from it. -/
inductive Side where
  | left
  | right
deriving DecidableEq

/-- Calibration profile: the eight known fields of the calibration
dictionary populated in GCControllerEnabler.init (lines 105-114). -/
structure Calibration where
  left_base : ℚ
  left_bump : ℚ
  left_max : ℚ
  right_base : ℚ
  right_bump : ℚ
  right_max : ℚ
  bump_100_percent : Bool
  emulation_mode : String
deriving DecidableEq

/-- Lookup of the key side + "_base", as in calibration[f'{side}_base']. -/
def baseOf (cal : Calibration) : Side → ℚ
  | Side.left => cal.left_base
  | Side.right => cal.right_base

/-- Lookup of the key side + "_bump". -/
def bumpOf (cal : Calibration) : Side → ℚ
  | Side.left => cal.left_bump
  | Side.right => cal.right_bump

/-- Lookup of the key side + "_max". -/
def maxOf (cal : Calibration) : Side → ℚ
  | Side.left => cal.left_max
  | Side.right => cal.right_max

/-- Default calibration values from GCControllerEnabler.init. -/
def default_calibration : Calibration :=
  { left_base := 32, left_bump := 190, left_max := 230,
    right_base := 32, right_bump := 190, right_max := 230,
    bump_100_percent := true, emulation_mode := "xbox360" }

/-- Embedding of calibrate_trigger_fast (lines 651-670): reads the cached
calibration dictionary, shifts the raw value down by base clamping at 0,
selects the range by trigger mode, guards a non-positive range, scales to
0-255 with Python int() truncation, and clamps the result. -/
def calibrate_trigger_fast (cached : Calibration) (raw_value : ℤ) (side : Side) : ℤ :=
  let base := baseOf cached side
  let bump := bumpOf cached side
  let max_val := maxOf cached side
  let calibrated0 : ℚ := (raw_value : ℚ) - base
  let calibrated : ℚ := if calibrated0 < 0 then 0 else calibrated0
  let range_val : ℚ := if cached.bump_100_percent then bump - base else max_val - base
  if range_val ≤ 0 then 0
  else
    let result : ℤ := pyInt (calibrated / range_val * 255)
    max 0 (min 255 result)

/-- Embedding of calibrate_trigger (lines 672-694): identical computation
reading the live calibration dictionary instead of the cached copy. -/
def calibrate_trigger (calibration : Calibration) (raw_value : ℤ) (side : Side) : ℤ :=
  let base := baseOf calibration side
  let bump := bumpOf calibration side
  let max_val := maxOf calibration side
  let calibrated0 : ℚ := (raw_value : ℚ) - base
  let calibrated : ℚ := if calibrated0 < 0 then 0 else calibrated0
  let range_val : ℚ := if calibration.bump_100_percent then bump - base else max_val - base
  if range_val ≤ 0 then 0
  else
    let result : ℤ := pyInt (calibrated / range_val * 255)
    max 0 (min 255 result)

/-- Range selected by the trigger mode, as computed in both calibration
functions. -/
def selectedRange (cal : Calibration) (side : Side) : ℚ :=
  if cal.bump_100_percent then bumpOf cal side - baseOf cal side
  else maxOf cal side - baseOf cal side

theorem pyInt_of_nonneg {q : ℚ} (h : 0 ≤ q) : pyInt q = ⌊q⌋ := by
  simp [pyInt, not_lt.mpr h]

theorem calibrate_trigger_fast_eq (cal : Calibration) (raw : ℤ) (side : Side) :
    calibrate_trigger_fast cal raw side =
      if selectedRange cal side ≤ 0 then 0
      else max 0 (min 255 (pyInt (max 0 ((raw : ℚ) - baseOf cal side) /
        selectedRange cal side * 255))) := by
  unfold calibrate_trigger_fast selectedRange
  rcases lt_or_le ((raw : ℚ) - baseOf cal side) 0 with h | h
  · simp only [if_pos h, max_eq_left h.le]
  · simp only [if_neg (not_lt.mpr h), max_eq_right h]

end GCEnabler

namespace GCEnabler

/-- Claim C1 (amended): when the selected range is positive, the trigger
calibration returns the floor (Python int() truncation of a nonnegative
value) of shifted / range * 255, clamped to [0,255], where
shifted = max(0, raw - base) and range is bump - base under bump100 mode
and max - base otherwise.  The original claim said round instead of
floor. -/
theorem claim_C1 (raw : ℤ) (cal : Calibration) (side : Side)
    (h0 : 0 ≤ raw) (h255 : raw ≤ 255) (hr : 0 < selectedRange cal side) :
    calibrate_trigger_fast cal raw side =
      max 0 (min 255 ⌊max 0 ((raw : ℚ) - baseOf cal side) /
        selectedRange cal side * 255⌋) := by
  rw [calibrate_trigger_fast_eq, if_neg (not_le.mpr hr)]
  rw [pyInt_of_nonneg]
  positivity

/-- Witness for claim C1 at the scenario input raw=110, base=32, bump=190,
bump_100_percent=true. -/
theorem claim_C1_witness :
    calibrate_trigger_fast default_calibration 110 Side.left =
      max 0 (min 255 ⌊max 0 ((110 : ℚ) - baseOf default_calibration Side.left) /
        selectedRange default_calibration Side.left * 255⌋) :=
  claim_C1 110 default_calibration Side.left (by norm_num) (by norm_num)
    (by norm_num [selectedRange, baseOf, bumpOf, default_calibration])

/-- Counterexample to claim C1 as stated: the scenario raw=110, base=32,
bump=190, bump_100_percent=true yields 125, not the claimed 126; the code
truncates with int() rather than rounding. -/
theorem claim_C1_counterexample :
    calibrate_trigger_fast default_calibration 110 Side.left = 125 ∧
      calibrate_trigger_fast default_calibration 110 Side.left ≠ 126 := by
  have hbase : baseOf default_calibration Side.left = 32 := rfl
  have hrange : selectedRange default_calibration Side.left = 158 := by
    norm_num [selectedRange, baseOf, bumpOf, default_calibration]
  have h : calibrate_trigger_fast default_calibration 110 Side.left = 125 := by
    rw [calibrate_trigger_fast_eq, hrange, hbase]
    rw [if_neg (by norm_num)]
    rw [pyInt_of_nonneg (by positivity)]
    rw [show (0 : ℚ) ⊔ (((110 : ℤ) : ℚ) - 32) = 78 from by norm_num [max_def]]
    rw [show (78 : ℚ) / 158 * 255 = 9945 / 79 from by norm_num]
    rw [show ⌊(9945 : ℚ) / 79⌋ = 125 from by rw [Int.floor_eq_iff]; norm_num]
    norm_num [min_def, max_def]
  exact ⟨h, by rw [h]; decide⟩

theorem calibrate_fast_nonneg (cal : Calibration) (r : ℤ) (side : Side) :
    0 ≤ calibrate_trigger_fast cal r side := by
  rw [calibrate_trigger_fast_eq]
  split
  · exact le_refl 0
  · exact le_max_left 0 _

theorem calibrate_fast_le_255 (cal : Calibration) (r : ℤ) (side : Side) :
    calibrate_trigger_fast cal r side ≤ 255 := by
  rw [calibrate_trigger_fast_eq]
  split
  · norm_num
  · exact max_le (by norm_num) (min_le_left _ _)

theorem selectedRange_pos (cal : Calibration) (side : Side)
    (hvb : baseOf cal side < bumpOf cal side)
    (hbm : bumpOf cal side ≤ maxOf cal side) : 0 < selectedRange cal side := by
  unfold selectedRange
  split <;> linarith

theorem calibrate_fast_mono (cal : Calibration) (side : Side)
    (hr : 0 < selectedRange cal side) {r r' : ℤ} (h : r ≤ r') :
    calibrate_trigger_fast cal r side ≤ calibrate_trigger_fast cal r' side := by
  rw [calibrate_trigger_fast_eq, calibrate_trigger_fast_eq,
    if_neg (not_le.mpr hr), if_neg (not_le.mpr hr)]
  have hcast : ((r : ℚ)) ≤ ((r' : ℚ)) := by exact_mod_cast h
  have h1 : (0 : ℚ) ⊔ ((r : ℚ) - baseOf cal side) ≤
      (0 : ℚ) ⊔ ((r' : ℚ) - baseOf cal side) :=
    max_le_max le_rfl (by linarith)
  have h2 : ((0 : ℚ) ⊔ ((r : ℚ) - baseOf cal side)) / selectedRange cal side * 255 ≤
      ((0 : ℚ) ⊔ ((r' : ℚ) - baseOf cal side)) / selectedRange cal side * 255 := by
    exact mul_le_mul_of_nonneg_right ((div_le_div_iff_of_pos_right hr).mpr h1)
      (by norm_num)
  rw [pyInt_of_nonneg (by positivity), pyInt_of_nonneg (by positivity)]
  exact max_le_max le_rfl (min_le_min le_rfl (Int.floor_le_floor h2))

theorem calibrate_fast_zero_below_base (cal : Calibration) (side : Side)
    {r : ℤ} (h : (r : ℚ) ≤ baseOf cal side) :
    calibrate_trigger_fast cal r side = 0 := by
  rw [calibrate_trigger_fast_eq]
  split
  · rfl
  · rw [show (0 : ℚ) ⊔ ((r : ℚ) - baseOf cal side) = 0 from max_eq_left (by linarith)]
    rw [zero_div, zero_mul]
    norm_num [pyInt, min_def, max_def]

/-- Claim C5: for every valid calibration (base < bump ≤ max on the side in
use) and either trigger mode, the trigger calibration stays inside [0,255]
on every raw value in [0,255], is monotonically non-decreasing in the raw
value, and returns 0 whenever the raw value is at or below base. -/
theorem claim_C5 (cal : Calibration) (side : Side)
    (hvb : baseOf cal side < bumpOf cal side)
    (hbm : bumpOf cal side ≤ maxOf cal side) :
    (∀ r : ℤ, 0 ≤ r → r ≤ 255 →
      0 ≤ calibrate_trigger_fast cal r side ∧ calibrate_trigger_fast cal r side ≤ 255)
    ∧ (∀ r r' : ℤ, 0 ≤ r → r' ≤ 255 → r ≤ r' →
      calibrate_trigger_fast cal r side ≤ calibrate_trigger_fast cal r' side)
    ∧ (∀ r : ℤ, (r : ℚ) ≤ baseOf cal side → calibrate_trigger_fast cal r side = 0) := by
  refine ⟨fun r _ _ => ⟨calibrate_fast_nonneg cal r side, calibrate_fast_le_255 cal r side⟩,
    fun r r' _ _ h => calibrate_fast_mono cal side (selectedRange_pos cal side hvb hbm) h,
    fun r h => calibrate_fast_zero_below_base cal side h⟩

/-- Witness for claim C5 on the default profile: range membership at
raw=110, monotonicity from raw=100 to raw=110, and zero output at
raw=20 ≤ base=32. -/
theorem claim_C5_witness :
    (0 ≤ calibrate_trigger_fast default_calibration 110 Side.left ∧
      calibrate_trigger_fast default_calibration 110 Side.left ≤ 255)
    ∧ calibrate_trigger_fast default_calibration 100 Side.left ≤
      calibrate_trigger_fast default_calibration 110 Side.left
    ∧ calibrate_trigger_fast default_calibration 20 Side.left = 0 := by
  have hc := claim_C5 default_calibration Side.left
    (by norm_num [baseOf, bumpOf, default_calibration])
    (by norm_num [bumpOf, maxOf, default_calibration])
  exact ⟨hc.1 110 (by norm_num) (by norm_num),
    hc.2.1 100 110 (by norm_num) (by norm_num) (by norm_num),
    hc.2.2 20 (by norm_num [baseOf, default_calibration])⟩

/-- Profile with base > bump used to exercise the degenerate-range guard. -/
def degenerate_calibration : Calibration :=
  { left_base := 200, left_bump := 100, left_max := 150,
    right_base := 200, right_bump := 100, right_max := 150,
    bump_100_percent := true, emulation_mode := "xbox360" }

/-- Claim C6: whenever the selected range (bump - base under bump100 mode,
otherwise max - base) is non-positive the calibration returns 0, and for
every profile, malformed ones included, the output lies in [0,255]. -/
theorem claim_C6 :
    (∀ (cal : Calibration) (r : ℤ) (side : Side),
      selectedRange cal side ≤ 0 → calibrate_trigger_fast cal r side = 0)
    ∧ (∀ (cal : Calibration) (r : ℤ) (side : Side),
      0 ≤ calibrate_trigger_fast cal r side ∧ calibrate_trigger_fast cal r side ≤ 255) := by
  constructor
  · intro cal r side h
    rw [calibrate_trigger_fast_eq, if_pos h]
  · intro cal r side
    exact ⟨calibrate_fast_nonneg cal r side, calibrate_fast_le_255 cal r side⟩

/-- Witness for claim C6 on a malformed profile with base=200 > bump=100:
the degenerate guard fires at raw=110 and the bounds hold there. -/
theorem claim_C6_witness :
    calibrate_trigger_fast degenerate_calibration 110 Side.left = 0 ∧
      (0 ≤ calibrate_trigger_fast degenerate_calibration 110 Side.left ∧
        calibrate_trigger_fast degenerate_calibration 110 Side.left ≤ 255) :=
  ⟨claim_C6.1 degenerate_calibration 110 Side.left
      (by norm_num [selectedRange, baseOf, bumpOf, degenerate_calibration]),
    claim_C6.2 degenerate_calibration 110 Side.left⟩

/-- GameCube button table entry: report byte index, bit mask, button name,
embedding the ButtonInfo class (lines 43-48). -/
structure ButtonInfo where
  byte_index : ℕ
  mask : ℕ
  name : String
deriving DecidableEq

/-- Fixed button table from GCControllerEnabler.init (lines 83-102). -/
def buttons : List ButtonInfo :=
  [⟨3, 0x01, "B"⟩, ⟨3, 0x02, "A"⟩, ⟨3, 0x04, "Y"⟩, ⟨3, 0x08, "X"⟩,
   ⟨3, 0x10, "R"⟩, ⟨3, 0x20, "Z"⟩, ⟨3, 0x40, "Start/Pause"⟩,
   ⟨4, 0x01, "Dpad Down"⟩, ⟨4, 0x02, "Dpad Right"⟩, ⟨4, 0x04, "Dpad Left"⟩,
   ⟨4, 0x08, "Dpad Up"⟩, ⟨4, 0x10, "L"⟩, ⟨4, 0x20, "ZL"⟩,
   ⟨5, 0x01, "Home"⟩, ⟨5, 0x02, "Capture"⟩, ⟨5, 0x04, "GR"⟩,
   ⟨5, 0x08, "GL"⟩, ⟨5, 0x10, "Chat"⟩]

/-- Button-state dictionary built by the decoding loop in
process_controller_data (lines 467-471): one entry per table button whose
byte index lies inside the report, inserted in table order. -/
def decodeButtons (data : List ℕ) : List (String × Bool) :=
  buttons.filterMap fun b =>
    if b.byte_index < data.length then
      some (b.name, (data.getD b.byte_index 0 &&& b.mask) != 0)
    else none

/-- Stick normalization (raw - 2048) / 2048.0 from lines 461-464. -/
def normalizeStick (raw : ℕ) : ℚ :=
  ((raw : ℚ) - 2048) / 2048

/-- Typed decode failure; the too-short-report early return at line 451. -/
inductive DecodeError where
  | malformedReport
deriving DecidableEq

/-- Decoded snapshot of one report: normalized sticks, button-state
dictionary, raw trigger bytes. -/
structure InputFrame where
  left_x_norm : ℚ
  left_y_norm : ℚ
  right_x_norm : ℚ
  right_y_norm : ℚ
  button_states : List (String × Bool)
  left_trigger : ℕ
  right_trigger : ℕ
deriving DecidableEq

/-- Embedding of the decoding part of process_controller_data (lines
449-475): the length guard at line 451 becomes the MalformedReport error,
sticks are 12-bit nibble-interleaved pairs at offsets 6 and 9, triggers are
bytes 13 and 14 behind their own length guards. -/
def process_controller_data (data : List ℕ) : Except DecodeError InputFrame :=
  if data.length < 15 then Except.error DecodeError.malformedReport
  else
    let left_stick_x : ℕ := data.getD 6 0 ||| ((data.getD 7 0 &&& 0x0F) <<< 8)
    let left_stick_y : ℕ := (data.getD 7 0 >>> 4) ||| (data.getD 8 0 <<< 4)
    let right_stick_x : ℕ := data.getD 9 0 ||| ((data.getD 10 0 &&& 0x0F) <<< 8)
    let right_stick_y : ℕ := (data.getD 10 0 >>> 4) ||| (data.getD 11 0 <<< 4)
    Except.ok
      { left_x_norm := normalizeStick left_stick_x,
        left_y_norm := normalizeStick left_stick_y,
        right_x_norm := normalizeStick right_stick_x,
        right_y_norm := normalizeStick right_stick_y,
        button_states := decodeButtons data,
        left_trigger := if 13 < data.length then data.getD 13 0 else 0,
        right_trigger := if 14 < data.length then data.getD 14 0 else 0 }

theorem decodeButtons_eq (data : List ℕ) (h : 15 ≤ data.length) :
    decodeButtons data =
      [("B", (data.getD 3 0 &&& 1) != 0), ("A", (data.getD 3 0 &&& 2) != 0),
       ("Y", (data.getD 3 0 &&& 4) != 0), ("X", (data.getD 3 0 &&& 8) != 0),
       ("R", (data.getD 3 0 &&& 16) != 0), ("Z", (data.getD 3 0 &&& 32) != 0),
       ("Start/Pause", (data.getD 3 0 &&& 64) != 0),
       ("Dpad Down", (data.getD 4 0 &&& 1) != 0),
       ("Dpad Right", (data.getD 4 0 &&& 2) != 0),
       ("Dpad Left", (data.getD 4 0 &&& 4) != 0),
       ("Dpad Up", (data.getD 4 0 &&& 8) != 0),
       ("L", (data.getD 4 0 &&& 16) != 0), ("ZL", (data.getD 4 0 &&& 32) != 0),
       ("Home", (data.getD 5 0 &&& 1) != 0), ("Capture", (data.getD 5 0 &&& 2) != 0),
       ("GR", (data.getD 5 0 &&& 4) != 0), ("GL", (data.getD 5 0 &&& 8) != 0),
       ("Chat", (data.getD 5 0 &&& 16) != 0)] := by
  have h3 : 3 < data.length := by omega
  have h4 : 4 < data.length := by omega
  have h5 : 5 < data.length := by omega
  simp [decodeButtons, buttons, h3, h4, h5]

/-- Claim C2: on any report of length at least 15, each of the 18 buttons of
the fixed table is marked pressed exactly when report[byte_index] & mask is
nonzero, the decoded dictionary carries exactly the 18 table names in table
order, and the table has 18 entries spanning byte indices 3, 4 and 5. -/
theorem claim_C2 (data : List ℕ) (h : 15 ≤ data.length) :
    (∀ bi ∈ buttons, List.lookup bi.name (decodeButtons data) =
      some ((data.getD bi.byte_index 0 &&& bi.mask) != 0))
    ∧ (decodeButtons data).map Prod.fst = buttons.map ButtonInfo.name
    ∧ buttons.length = 18
    ∧ buttons.map ButtonInfo.byte_index = [3, 3, 3, 3, 3, 3, 3, 4, 4, 4, 4, 4, 4, 5, 5, 5, 5, 5] := by
  refine ⟨?_, ?_, rfl, rfl⟩
  · intro bi hbi
    fin_cases hbi <;> rw [decodeButtons_eq data h] <;> rfl
  · rw [decodeButtons_eq data h]
    rfl

/-- Witness for claim C2 on the 15-byte report with only byte 3 bit 0 set:
the B button decodes as pressed. -/
theorem claim_C2_witness :
    List.lookup "B" (decodeButtons [0, 0, 0, 1, 0, 0, 0, 0, 0, 0, 0, 0, 0, 0, 0]) =
      some true := by
  have h := (claim_C2 [0, 0, 0, 1, 0, 0, 0, 0, 0, 0, 0, 0, 0, 0, 0] (by norm_num)).1
    ⟨3, 1, "B"⟩ (by decide)
  exact h.trans (by decide)

/-- Claim C3: decoding fails with the typed MalformedReport error on every
report shorter than 15 bytes, producing no frame there, and succeeds with a
frame on every report of length at least 15. -/
theorem claim_C3 :
    (∀ data : List ℕ, data.length < 15 →
      process_controller_data data = Except.error DecodeError.malformedReport)
    ∧ (∀ data : List ℕ, 15 ≤ data.length →
      ∃ frame, process_controller_data data = Except.ok frame) := by
  constructor
  · intro data h
    simp [process_controller_data, h]
  · intro data h
    unfold process_controller_data
    rw [if_neg (Nat.not_lt.mpr h)]
    exact ⟨_, rfl⟩

/-- Witness for claim C3: the empty report fails as malformed, the all-zero
15-byte report decodes to some frame. -/
theorem claim_C3_witness :
    process_controller_data [] = Except.error DecodeError.malformedReport ∧
      ∃ frame, process_controller_data (List.replicate 15 0) = Except.ok frame :=
  ⟨claim_C3.1 [] (by norm_num),
    claim_C3.2 (List.replicate 15 0) (by norm_num)⟩

/-- Claim C4 (amended): on any report of length at least 15 the decoder
extracts the left stick from bytes 6-8 and the right stick from bytes 9-11
as 12-bit nibble-interleaved pairs, normalizes with (raw - 2048) / 2048, and
the normalization sends raw=2048 to 0, raw=0 to -1, and raw=4095 to
2047/2048, which is approximately 0.99951.  The original claim gave
approximately 0.99976 for raw=4095. -/
theorem claim_C4 (data : List ℕ) (h : 15 ≤ data.length) :
    (∃ frame, process_controller_data data = Except.ok frame ∧
      frame.left_x_norm = normalizeStick (data.getD 6 0 ||| ((data.getD 7 0 &&& 15) <<< 8)) ∧
      frame.left_y_norm = normalizeStick ((data.getD 7 0 >>> 4) ||| (data.getD 8 0 <<< 4)) ∧
      frame.right_x_norm = normalizeStick (data.getD 9 0 ||| ((data.getD 10 0 &&& 15) <<< 8)) ∧
      frame.right_y_norm = normalizeStick ((data.getD 10 0 >>> 4) ||| (data.getD 11 0 <<< 4)))
    ∧ normalizeStick 2048 = 0
    ∧ normalizeStick 0 = -1
    ∧ normalizeStick 4095 = 2047 / 2048 := by
  refine ⟨?_, by norm_num [normalizeStick], by norm_num [normalizeStick],
    by norm_num [normalizeStick]⟩
  unfold process_controller_data
  rw [if_neg (Nat.not_lt.mpr h)]
  exact ⟨_, rfl, rfl, rfl, rfl, rfl⟩

/-- Witness for claim C4 on the all-zero 15-byte report: the decoded left
stick x is normalizeStick 0 = -1. -/
theorem claim_C4_witness :
    (∃ frame, process_controller_data (List.replicate 15 0) = Except.ok frame ∧
      frame.left_x_norm = normalizeStick 0) ∧ normalizeStick 0 = -1 := by
  obtain ⟨⟨frame, hf, hx, _⟩, _, hneg, _⟩ :=
    claim_C4 (List.replicate 15 0) (by norm_num)
  exact ⟨⟨frame, hf, by simpa using hx⟩, hneg⟩

/-- Counterexample to claim C4 as stated: the normalization of the extreme
raw value 4095 is 2047/2048 = 0.99951171875, which differs from the claimed
approximate value 0.99976 by more than 2/10000. -/
theorem claim_C4_counterexample :
    normalizeStick 4095 = 2047 / 2048 ∧
      (99976 : ℚ) / 100000 - 2047 / 2048 > 2 / 10000 := by
  constructor
  · norm_num [normalizeStick]
  · norm_num

/-- Xbox button vocabulary of the virtual sink, from the vgamepad XUSB
constants used at lines 606-621. -/
inductive XUSBButton where
  | A
  | B
  | X
  | Y
  | RIGHT_SHOULDER
  | LEFT_SHOULDER
  | START
  | GUIDE
  | BACK
  | DPAD_UP
  | DPAD_DOWN
  | DPAD_LEFT
  | DPAD_RIGHT
deriving DecidableEq

/-- Virtual-sink operation vocabulary: one constructor per vgamepad call
made by update_virtual_controller; update is the frame commit. -/
inductive SinkOp where
  | leftJoystick (x y : ℤ)
  | rightJoystick (x y : ℤ)
  | pressButton (b : XUSBButton)
  | releaseButton (b : XUSBButton)
  | leftTrigger (v : ℤ)
  | rightTrigger (v : ℤ)
  | update
deriving DecidableEq

/-- Axis scaling from lines 589-593:
int(max(-32767, min(32767, norm * 32767))). -/
def scale_axis (norm : ℚ) : ℤ :=
  pyInt (max (-32767) (min 32767 (norm * 32767)))

/-- Button mapping table from lines 606-621; Capture and Chat both map to
BACK. -/
def button_mapping : List (String × XUSBButton) :=
  [("A", XUSBButton.A), ("B", XUSBButton.B), ("X", XUSBButton.X),
   ("Y", XUSBButton.Y), ("Z", XUSBButton.RIGHT_SHOULDER),
   ("ZL", XUSBButton.LEFT_SHOULDER), ("Start/Pause", XUSBButton.START),
   ("Home", XUSBButton.GUIDE), ("Capture", XUSBButton.BACK),
   ("Chat", XUSBButton.BACK), ("Dpad Up", XUSBButton.DPAD_UP),
   ("Dpad Down", XUSBButton.DPAD_DOWN), ("Dpad Left", XUSBButton.DPAD_LEFT),
   ("Dpad Right", XUSBButton.DPAD_RIGHT)]

/-- Dictionary get with a default, as in button_states.get(name, False). -/
def getDefault (d : List (String × Bool)) (k : String) (dflt : Bool) : Bool :=
  match List.lookup k d with
  | some v => v
  | none => dflt

/-- Press/release operations emitted for the button table (lines
624-629). -/
def buttonOps (button_states : List (String × Bool)) : List SinkOp :=
  button_mapping.map fun bm =>
    if getDefault button_states bm.1 false then SinkOp.pressButton bm.2
    else SinkOp.releaseButton bm.2

/-- Embedding of update_virtual_controller (lines 581-649) as the ordered
trace of sink calls made by one push: joystick axes, press/release per the
button table, the digital L/R full-scale override layered over the
calibrated analog triggers, and the final commit.  The gamepad-absent early
return and the exception guard sit outside the model, which follows the
straight-line call sequence. -/
def update_virtual_controller (left_x left_y right_x right_y : ℚ)
    (left_trigger right_trigger : ℤ)
    (button_states : List (String × Bool)) (cached : Calibration) : List SinkOp :=
  let left_x_scaled := scale_axis left_x
  let left_y_scaled := scale_axis left_y
  let right_x_scaled := scale_axis right_x
  let right_y_scaled := scale_axis right_y
  let left_trigger_calibrated := calibrate_trigger_fast cached left_trigger Side.left
  let right_trigger_calibrated := calibrate_trigger_fast cached right_trigger Side.right
  let l_pressed := getDefault button_states "L" false
  let r_pressed := getDefault button_states "R" false
  [SinkOp.leftJoystick left_x_scaled left_y_scaled,
   SinkOp.rightJoystick right_x_scaled right_y_scaled]
  ++ buttonOps button_states
  ++ [if l_pressed then SinkOp.leftTrigger 255
      else SinkOp.leftTrigger left_trigger_calibrated,
      if r_pressed then SinkOp.rightTrigger 255
      else SinkOp.rightTrigger right_trigger_calibrated]
  ++ [SinkOp.update]

/-- Values carried by the leftTrigger calls of a sink trace. -/
def leftTriggerValues (ops : List SinkOp) : List ℤ :=
  ops.filterMap fun op =>
    match op with
    | SinkOp.leftTrigger v => some v
    | _ => none

/-- Values carried by the rightTrigger calls of a sink trace. -/
def rightTriggerValues (ops : List SinkOp) : List ℤ :=
  ops.filterMap fun op =>
    match op with
    | SinkOp.rightTrigger v => some v
    | _ => none

/-- Number of commit calls in a sink trace. -/
def commitCount (ops : List SinkOp) : ℕ :=
  (ops.filterMap fun op =>
    match op with
    | SinkOp.update => some Unit.unit
    | _ => none).length

theorem buttonOps_press_or_release (bs : List (String × Bool)) :
    ∀ a ∈ buttonOps bs,
      (∃ b, a = SinkOp.pressButton b) ∨ ∃ b, a = SinkOp.releaseButton b := by
  intro a ha
  unfold buttonOps at ha
  rw [List.mem_map] at ha
  obtain ⟨p, _, rfl⟩ := ha
  by_cases h : getDefault bs p.1 false
  · exact Or.inl ⟨p.2, by simp [h]⟩
  · exact Or.inr ⟨p.2, by simp [h]⟩

/-- Claim C7: on every push, the trigger sent to the sink is full-scale 255
when the digital L (respectively R) button is pressed and the calibrated
analog value otherwise, exactly one trigger call is made per side, and
exactly one commit is performed. -/
theorem claim_C7 (left_x left_y right_x right_y : ℚ)
    (left_trigger right_trigger : ℤ)
    (button_states : List (String × Bool)) (cached : Calibration) :
    leftTriggerValues (update_virtual_controller left_x left_y right_x right_y
        left_trigger right_trigger button_states cached) =
      [if getDefault button_states "L" false then 255
       else calibrate_trigger_fast cached left_trigger Side.left]
    ∧ rightTriggerValues (update_virtual_controller left_x left_y right_x right_y
        left_trigger right_trigger button_states cached) =
      [if getDefault button_states "R" false then 255
       else calibrate_trigger_fast cached right_trigger Side.right]
    ∧ commitCount (update_virtual_controller left_x left_y right_x right_y
        left_trigger right_trigger button_states cached) = 1 := by
  refine ⟨?_, ?_, ?_⟩ <;>
    by_cases hl : getDefault button_states "L" false <;>
    by_cases hr : getDefault button_states "R" false <;>
    simp [update_virtual_controller, leftTriggerValues, rightTriggerValues,
      commitCount, List.filterMap_append, hl, hr] <;>
    intro a ha <;>
    rcases buttonOps_press_or_release button_states a ha with ⟨b, rfl⟩ | ⟨b, rfl⟩ <;>
    rfl

/-- Claim C8 (amended): the value sent to a signed 16-bit sink axis is the
truncation toward zero (Python int()) of clamp(norm, -1, 1) * 32767; the
clamp written in the code on the product norm * 32767 agrees with clamping
norm first.  The original claim said round instead of truncation. -/
theorem claim_C8 (norm : ℚ) :
    scale_axis norm = pyInt (max (-1) (min 1 norm) * 32767) := by
  unfold scale_axis
  congr 1
  rcases le_total 1 norm with h1 | h1
  · have h2 : (32767 : ℚ) ≤ norm * 32767 := by nlinarith
    rw [min_eq_left h1, min_eq_left h2,
      max_eq_right (by norm_num : (-32767 : ℚ) ≤ 32767),
      max_eq_right (by norm_num : (-1 : ℚ) ≤ 1)]
    norm_num
  · rcases le_total norm (-1) with h2 | h2
    · have h3 : norm * 32767 ≤ -32767 := by nlinarith
      rw [min_eq_right h1, min_eq_right (h3.trans (by norm_num)),
        max_eq_left h3, max_eq_left h2]
      norm_num
    · have h3 : norm * 32767 ≤ 32767 := by nlinarith
      have h4 : (-32767 : ℚ) ≤ norm * 32767 := by nlinarith
      rw [min_eq_right h1, min_eq_right h3, max_eq_right h4, max_eq_right h2]

/-- Counterexample to claim C8 as stated: at norm = 1/2 the code truncates
16383.5 to 16383, while round(clamp(1/2, -1, 1) * 32767) = 16384. -/
theorem claim_C8_counterexample :
    scale_axis (1 / 2) = 16383 ∧
      round (max (-1) (min 1 ((1 : ℚ) / 2)) * 32767) = 16384 := by
  constructor
  · unfold scale_axis
    rw [show min (32767 : ℚ) (1 / 2 * 32767) = 32767 / 2 from by norm_num,
      show max (-32767 : ℚ) (32767 / 2) = 32767 / 2 from by norm_num [max_def]]
    rw [pyInt_of_nonneg (by norm_num)]
    rw [Int.floor_eq_iff]
    norm_num
  · rw [show max (-1 : ℚ) (min 1 ((1 : ℚ) / 2)) = 1 / 2 from by norm_num [max_def, min_def]]
    rw [round_eq, show (1 : ℚ) / 2 * 32767 + 1 / 2 = 16384 from by norm_num]
    rw [Int.floor_eq_iff]
    norm_num

/-- JSON scalar values appearing in the settings record. -/
inductive JsonValue where
  | num (q : ℚ)
  | bool (b : Bool)
  | str (s : String)
deriving DecidableEq

/-- Single-key assignment with Python dict semantics: replace the binding
in place when the key is present, append otherwise. -/
def dictSet : List (String × JsonValue) → String → JsonValue → List (String × JsonValue)
  | [], k, v => [(k, v)]
  | p :: rest, k, v => if p.1 = k then (k, v) :: rest else p :: dictSet rest k v

/-- Python dict.update: assign every binding of the second dictionary into
the first, left to right. -/
def dictUpdate (d1 d2 : List (String × JsonValue)) : List (String × JsonValue) :=
  d2.foldl (fun acc p => dictSet acc p.1 p.2) d1

/-- Default settings dictionary from GCControllerEnabler.init (lines
105-114), the state of self.calibration before load_settings runs. -/
def default_settings : List (String × JsonValue) :=
  [("left_base", JsonValue.num 32), ("left_bump", JsonValue.num 190),
   ("left_max", JsonValue.num 230), ("right_base", JsonValue.num 32),
   ("right_bump", JsonValue.num 190), ("right_max", JsonValue.num 230),
   ("bump_100_percent", JsonValue.bool true),
   ("emulation_mode", JsonValue.str "xbox360")]

/-- Embedding of load_settings (lines 725-734): a missing or malformed
settings file, where json.load raises and the except clause swallows the
error, is the none case and leaves the defaults untouched; a parsed
document is merged over the defaults with dict.update. -/
def load_settings (doc : Option (List (String × JsonValue))) :
    List (String × JsonValue) :=
  match doc with
  | none => default_settings
  | some saved_settings => dictUpdate default_settings saved_settings

theorem lookup_dictSet_ne (d : List (String × JsonValue)) (k u : String)
    (v : JsonValue) (h : u ≠ k) :
    List.lookup k (dictSet d u v) = List.lookup k d := by
  have hku : (k == u) = false := beq_eq_false_iff_ne.mpr (Ne.symm h)
  induction d with
  | nil =>
    simp [dictSet, List.lookup, hku]
  | cons p rest ih =>
    by_cases hp : p.1 = u
    · rw [dictSet, if_pos hp]
      have hk : p.1 ≠ k := hp ▸ h
      have hkp : (k == p.1) = false := beq_eq_false_iff_ne.mpr (Ne.symm hk)
      simp [List.lookup, hku, hkp]
    · rw [dictSet, if_neg hp]
      by_cases hk : p.1 = k
      · simp [List.lookup, hk]
      · have hkp : (k == p.1) = false := beq_eq_false_iff_ne.mpr (Ne.symm hk)
        simp [List.lookup, hkp, ih]

theorem lookup_dictUpdate_not_mem (d1 d2 : List (String × JsonValue))
    (k : String) (h : ∀ p ∈ d2, p.1 ≠ k) :
    List.lookup k (dictUpdate d1 d2) = List.lookup k d1 := by
  induction d2 generalizing d1 with
  | nil => rfl
  | cons p rest ih =>
    show List.lookup k (dictUpdate (dictSet d1 p.1 p.2) rest) = _
    rw [ih (dictSet d1 p.1 p.2) fun q hq => h q (List.mem_cons_of_mem p hq)]
    exact lookup_dictSet_ne d1 k p.1 p.2 (h p (List.mem_cons_self p rest))

theorem dictUpdate_append_single (d1 d2 : List (String × JsonValue))
    (u : String) (v : JsonValue) :
    dictUpdate d1 (d2 ++ [(u, v)]) = dictSet (dictUpdate d1 d2) u v := by
  unfold dictUpdate
  rw [List.foldl_append]
  rfl

/-- Claim C9: loading the settings record is total (a malformed document is
swallowed and leaves every default in effect), every field missing from the
document keeps its default, an unknown field in the document changes no
other key, and the defaults are base=32, bump=190, max=230 on both sides,
bump_100_percent=true, emulation_mode="xbox360". -/
theorem claim_C9 :
    load_settings none = default_settings
    ∧ (∀ (d : List (String × JsonValue)) (k : String), (∀ p ∈ d, p.1 ≠ k) →
        List.lookup k (load_settings (some d)) = List.lookup k default_settings)
    ∧ (∀ (d : List (String × JsonValue)) (u : String) (v : JsonValue) (k : String),
        u ≠ k →
        List.lookup k (load_settings (some (d ++ [(u, v)]))) =
          List.lookup k (load_settings (some d)))
    ∧ List.lookup "left_base" default_settings = some (JsonValue.num 32)
    ∧ List.lookup "left_bump" default_settings = some (JsonValue.num 190)
    ∧ List.lookup "left_max" default_settings = some (JsonValue.num 230)
    ∧ List.lookup "right_base" default_settings = some (JsonValue.num 32)
    ∧ List.lookup "right_bump" default_settings = some (JsonValue.num 190)
    ∧ List.lookup "right_max" default_settings = some (JsonValue.num 230)
    ∧ List.lookup "bump_100_percent" default_settings = some (JsonValue.bool true)
    ∧ List.lookup "emulation_mode" default_settings = some (JsonValue.str "xbox360") := by
  refine ⟨rfl, ?_, ?_, rfl, rfl, rfl, rfl, rfl, rfl, rfl, rfl⟩
  · intro d k h
    exact lookup_dictUpdate_not_mem default_settings d k h
  · intro d u v k h
    show List.lookup k (dictUpdate default_settings (d ++ [(u, v)])) = _
    rw [dictUpdate_append_single]
    exact lookup_dictSet_ne _ k u v h

/-- Witness for claim C9: a document holding only an unknown field leaves
left_base at its default 32. -/
theorem claim_C9_witness :
    List.lookup "left_base" (load_settings (some [("unknown_field", JsonValue.num 7)])) =
      some (JsonValue.num 32) := by
  have h := claim_C9.2.1 [("unknown_field", JsonValue.num 7)] "left_base"
    (by decide)
  rw [h]
  rfl

/-- Claim C10: when the cached calibration dictionary equals the live one,
the optimized path calibrate_trigger_fast and the plain path
calibrate_trigger return the same result on every raw value and side. -/
theorem claim_C10 (cached live : Calibration) (h : cached = live)
    (raw : ℤ) (side : Side) :
    calibrate_trigger_fast cached raw side = calibrate_trigger live raw side := by
  subst h
  rfl

/-- Witness for claim C10 on the default profile at raw=110. -/
theorem claim_C10_witness :
    calibrate_trigger_fast default_calibration 110 Side.left =
      calibrate_trigger default_calibration 110 Side.left :=
  claim_C10 default_calibration default_calibration rfl 110 Side.left

end GCEnabler
